import Mathlib

/-!
Shallow embedding of `streamlit_app.py` (R-STEP calculator UI) and proofs
about its field rendering, county/township reconciliation, payload
building, calculation submission and results rendering.

Python dict/JSON values are modelled by `JVal` with integers for JSON
numbers (every numeric literal exercised here is integral); Python floats
produced by `float(...)` coercion are modelled by `Rat` restricted to
plain decimal literals (no exponents, infinities or IEEE rounding, none of
which are exercised by the inputs considered here).
-/

namespace RStep

/-- JSON-ish value universe for schema rows, session values and results. -/
inductive JVal where
  | jnull
  | jbool (b : Bool)
  | jnum (n : Int)
  | jstr (s : String)
  | jarr (xs : List JVal)
  | jobj (kvs : List (String × JVal))

/-- Association-list lookup, mirroring Python `dict.get` (first match). -/
def alget {α : Type} : List (String × α) → String → Option α
  | [], _ => none
  | (k, v) :: rest, key => if key = k then some v else alget rest key

/-- Association-list write, mirroring Python `d[k] = v`: overwrite in place
when the key is present, append otherwise. -/
def alset {α : Type} (m : List (String × α)) (k : String) (v : α) :
    List (String × α) :=
  if (alget m k).isSome then
    m.map (fun p => if p.1 = k then (k, v) else p)
  else m ++ [(k, v)]

/-- Python truthiness of a `JVal`. -/
def truthy : JVal → Bool
  | .jnull => false
  | .jbool b => b
  | .jnum n => n != 0
  | .jstr s => s != ""
  | .jarr xs => !xs.isEmpty
  | .jobj kvs => !kvs.isEmpty

/-- Python `str(x)` on the values reachable in the modelled paths.  The
`repr` of containers is not modelled (no verified path stringifies one). -/
def pyStr : JVal → String
  | .jnull => "None"
  | .jbool true => "True"
  | .jbool false => "False"
  | .jnum n => toString n
  | .jstr s => s
  | .jarr _ => ""
  | .jobj _ => ""

/-- Interpret a string value, treating anything non-string as `""` (the
source applies `or ""` then `.strip()`, which only runs on strings). -/
def strOrEmpty : JVal → String
  | .jstr s => s
  | _ => ""

/-- Python `str.strip()`: drop whitespace from both ends. -/
def pyStrip (s : String) : String :=
  String.mk (((s.toList.dropWhile Char.isWhitespace).reverse.dropWhile
    Char.isWhitespace).reverse)

/-- Python `str.lower()` on the ASCII range. -/
def pyLower (s : String) : String :=
  String.mk (s.toList.map (fun c =>
    if 'A' ≤ c && c ≤ 'Z' then Char.ofNat (c.toNat + 32) else c))

/-- Value of a digit list, most significant first. -/
def digitsVal (cs : List Char) : Nat :=
  cs.foldl (fun a c => a * 10 + (c.toNat - '0'.toNat)) 0

/-- Decimal parser modelling Python `float(...)` on plain decimal literals:
optional sign, integer part, optional fractional part. -/
def parseDec (s : String) : Option Rat :=
  let cs := s.toList
  let neg : Bool := match cs with
    | '-' :: _ => true
    | _ => false
  let cs2 := match cs with
    | '-' :: t => t
    | '+' :: t => t
    | _ => cs
  let ip := cs2.takeWhile Char.isDigit
  let rest := cs2.dropWhile Char.isDigit
  match rest with
  | [] =>
    if ip.isEmpty then none
    else some (if neg then -(digitsVal ip : Rat) else (digitsVal ip : Rat))
  | '.' :: fp =>
    if fp.all Char.isDigit && !(ip.isEmpty && fp.isEmpty) then
      let q : Rat := (digitsVal ip : Rat) + (digitsVal fp : Rat) / ((10 : Rat) ^ fp.length)
      some (if neg then -q else q)
    else none
  | _ => none

/-- The `_to_float` helper (source lines 90-96): `None`/`""` yield `None`,
otherwise `float(x)`, with any exception collapsed to `None`. -/
def _to_float : JVal → Option Rat
  | .jnull => none
  | .jstr "" => none
  | .jnum n => some (n : Rat)
  | .jstr s => parseDec s
  | .jbool b => some (if b then 1 else 0)
  | _ => none

/-- Split a digit list (least significant first) into groups of three. -/
def chunk3 : List Char → List (List Char)
  | [] => []
  | [a] => [[a]]
  | [a, b] => [[a, b]]
  | a :: b :: c :: rest => [a, b, c] :: chunk3 rest

/-- Integer rendering of the Python format spec `,.0f`: thousands
separators, no decimals, leading minus for negatives. -/
def formatInt (n : Int) : String :=
  let ds := (toString n.natAbs).toList.reverse
  let grouped :=
    String.intercalate "," (((chunk3 ds).map (fun c => String.mk c.reverse)).reverse)
  (if n < 0 then "-" else "") ++ grouped

/-- Round-half-even (banker's rounding), as Python `format` applies it. -/
def roundHalfEven (q : Rat) : Int :=
  let f := ⌊q⌋
  let r := q - (f : Rat)
  if r < 1/2 then f
  else if (1:Rat)/2 < r then f + 1
  else if f % 2 = 0 then f else f + 1

/-- The `format_number` helper (source lines 198-206): empty for
`None`/`""`, thousands-separated zero-decimal rendering for numbers
(including numeric strings via `float(x)`; booleans are `int` instances in
Python), everything else passed through unchanged. -/
def format_number : JVal → JVal
  | .jnull => .jstr ""
  | .jstr "" => .jstr ""
  | .jbool b => .jstr (if b then "1" else "0")
  | .jnum n => .jstr (formatInt n)
  | .jstr s =>
    match parseDec s with
    | some q => .jstr (formatInt (roundHalfEven q))
    | none => .jstr s
  | v => v

/-- A schema field descriptor row: the keys the source reads via
`row.get(...)`, with `JVal.jnull` standing for an absent key.  `Name` is a
string because the source indexes it unconditionally (`row["Name"]`). -/
structure FieldRow where
  Name : String
  Description : JVal := JVal.jnull
  «Type» : JVal := JVal.jnull
  Required : JVal := JVal.jnull
  EnumValues : JVal := JVal.jnull
  Default : JVal := JVal.jnull
  Min : JVal := JVal.jnull
  Max : JVal := JVal.jnull

/-- An `outputs[]` row of a calculator (`Name`, `Label`). -/
structure OutputRow where
  Name : JVal := JVal.jnull
  Label : JVal := JVal.jnull

/-- A calculator of the schema: `id`, `inputs`, `outputs`. -/
structure Calculator where
  id : String
  inputs : List FieldRow := []
  outputs : List OutputRow := []

/-- The `(row.get("Type") or "string").lower()` computation.  A truthy
non-string `Type` raises `AttributeError` in the source and is not
modelled (mapped to `"string"`). -/
def typeStr (row : FieldRow) : String :=
  match row.«Type» with
  | .jstr s => if s = "" then "string" else pyLower s
  | _ => "string"

/-- Widget label (source lines 132-133): `Description` (falling back to
`Name` when falsy), stripped, with a trailing marker when `Required`. -/
def fieldLabel (row : FieldRow) : String :=
  let lt := (match row.Description with
    | .jstr s => if s = "" then row.Name else s
    | _ => row.Name) |> pyStrip
  lt ++ (if truthy row.Required then " *" else "")

/-- Test of `isinstance(ev, list) and len(ev) > 0`. -/
def isEnumList : JVal → Bool
  | .jarr (_ :: _) => true
  | _ => false

/-- List content of a `JVal` (empty for non-arrays). -/
def asArr : JVal → List JVal
  | .jarr xs => xs
  | _ => []

/-- The leading "no selection" option injected by the source. -/
def placeholder : String := "— select —"

/-- Python `list.index` wrapped in `try/except ValueError: idx = 0`. -/
def pyIndex (l : List String) (x : String) : Nat :=
  if x ∈ l then l.findIdx (· == x) else 0

/-- Python `str(current)` with `None` mapped to `""` (the
`"" if current_value is None else str(current_value)` idiom). -/
def strOfCurrent : JVal → String
  | .jnull => ""
  | v => pyStr v

/-- The `_selectbox_with_placeholder` helper (source lines 115-126):
prepend the placeholder and locate the current value, index 0 when the
value is absent or not among the options. -/
def selectboxWithPlaceholder (options : List String) (current : JVal) :
    List String × Nat :=
  let opts := placeholder :: options
  (opts, pyIndex opts (strOfCurrent current))

/-- Rendered numeric input: the `value`, `step`, `min_value` and
`max_value` arguments the source passes to the number widget. -/
structure NumberWidget where
  value : Rat
  step : Rat
  min_value : Option Rat
  max_value : Option Rat
deriving DecidableEq

/-- A rendered widget: selector (label, options, selected index, state
key), numeric input, or free-text input. -/
inductive Widget where
  | select (label : String) (options : List String) (index : Nat) (key : String)
  | number (label : String) (w : NumberWidget) (key : String)
  | text (label : String) (value : String) (key : String)

/-- Session state: a key-value store, as `st.session_state`. -/
def Sess : Type := List (String × JVal)

/-- Lookup of townships by a county value of arbitrary type (a non-string
key is absent from the string-keyed dict, yielding the `[]` default). -/
def tbGet (tbc : List (String × List String)) : JVal → List String
  | .jstr c => (alget tbc c).getD []
  | _ => []

/-- The township invalidation of `render_field` (source lines 155-157):
a truthy stored value not among the filtered townships is cleared to
`""`. -/
def rfTownship (towns : List String) (cur : JVal) : JVal :=
  if truthy cur && !(towns.contains (pyStr cur)) then .jstr "" else cur

/-- Value passed to the numeric widget (source lines 183-185): the current
value coerced by `_to_float`, else the coerced `Default`, else `0.0`. -/
def numValue (row : FieldRow) (current : JVal) : Rat :=
  match _to_float current with
  | some v => v
  | none => (_to_float row.Default).getD 0

/-- Step of the numeric widget (source line 182). -/
def numberStep (row : FieldRow) : Rat :=
  if typeStr row = "percentage" then 1/100 else 1

/-- The `render_field` dispatcher (source lines 128-196), returning the
rendered widget and the possibly-updated session state (the township
branch may clear its own key).  `co`/`tbc` are the module-level
`COUNTY_OPTIONS`/`TOWNSHIPS_BY_COUNTY`; help-text resolution is a pure
pass-through and is not modelled. -/
def render_field (co : List String) (tbc : List (String × List String))
    (sess : Sess) (row : FieldRow) (keyPref : String) (current : JVal) :
    Widget × Sess :=
  let t := typeStr row
  let label := fieldLabel row
  let key := keyPref ++ ":" ++ row.Name
  if row.Name = "county" ∧ co ≠ [] then
    let cur := (alget sess key).getD JVal.jnull
    let (opts, idx) := selectboxWithPlaceholder co cur
    (Widget.select label opts idx key, sess)
  else if row.Name = "township" ∧ tbc ≠ [] then
    let selectedCounty := (alget sess "global:county").getD JVal.jnull
    let towns := tbGet tbc selectedCounty
    let curVal := (alget sess key).getD JVal.jnull
    let newVal := rfTownship towns curVal
    let sess' := if truthy curVal && !(towns.contains (pyStr curVal))
      then alset sess key (JVal.jstr "") else sess
    let (opts, idx) := selectboxWithPlaceholder towns newVal
    (Widget.select label opts idx key, sess')
  else if isEnumList row.EnumValues then
    let options := (asArr row.EnumValues).map pyStr
    let cur := strOfCurrent current
    let idx0 := pyIndex options cur
    let idx := if idx0 < options.length then idx0 else 0
    (Widget.select label options idx key, sess)
  else if t = "number" ∨ t = "percentage" then
    (Widget.number label
      ⟨numValue row current, numberStep row, _to_float row.Min, _to_float row.Max⟩
      key, sess)
  else
    (Widget.text label (strOfCurrent current) key, sess)

/-- Insert a string into an ascending list (stable). -/
def insSorted (x : String) : List String → List String
  | [] => [x]
  | y :: ys => if x ≤ y then x :: y :: ys else y :: insSorted x ys

/-- Ascending sort of strings, as Python `sorted` on code points. -/
def sortStrings (l : List String) : List String :=
  l.foldr insSorted []

/-- Test of `isinstance(x, list)`. -/
def isList : JVal → Bool
  | .jarr _ => true
  | _ => false

/-- The township `EnumValues` fallback of `main` (source lines 322-327):
the first globals row named `township` whose `EnumValues` is a list
contributes its stringified, stripped, de-blanked, sorted entries. -/
def townshipEnumFallback (globalsRows : List FieldRow) : List String :=
  match globalsRows.find? (fun r => r.Name == "township" && isList r.EnumValues) with
  | some r =>
    sortStrings (((asArr r.EnumValues).map (fun x => pyStrip (pyStr x))).filter (· ≠ ""))
  | none => []

/-- Township option list of `main` (source lines 318-327): the selected
county's townships when a county is selected, with the `EnumValues`
fallback whenever that list comes up empty. -/
def townshipOptionsData (ctt : List (String × List String))
    (globalsRows : List FieldRow) (sessCounty : String) : List String :=
  let t0 := if sessCounty ≠ "" then (alget ctt sessCounty).getD [] else []
  if t0 = [] then townshipEnumFallback globalsRows else t0

/-- Outcome of rendering the global township selector: its option list,
the session value after sanitization, and the selected index. -/
structure SelectOut where
  options : List String
  stored : String
  index : Nat

/-- The global township selector of `main` (source lines 317-350):
options are the placeholder plus the filtered townships; a stored session
value not among the options is reset to the placeholder before the widget
is rendered; the index points at the (sanitized) stored value. -/
def mainTownship (ctt : List (String × List String))
    (globalsRows : List FieldRow) (sessCounty sessTown : String) : SelectOut :=
  let t_options := townshipOptionsData ctt globalsRows sessCounty
  let options := placeholder :: t_options
  let cur := if sessTown ∈ options then sessTown else placeholder
  ⟨options, cur, pyIndex options cur⟩

/-- One iteration of the per-calculator field collection of `main`
(source lines 378-384): skip names among the globals, record the session
value when the scoped key is present in session state. -/
def collStep (sess : Sess) (gnames : List String) (cid : String)
    (per : List (String × JVal)) (row : FieldRow) : List (String × JVal) :=
  if gnames.contains row.Name then per
  else match alget sess ("calc:" ++ cid ++ ":" ++ row.Name) with
    | some v => alset per row.Name v
    | none => per

/-- Per-calculator override collection of `main` (source lines 377-384). -/
def collAux (sess : Sess) (gnames : List String) (cid : String)
    (per : List (String × JVal)) : List FieldRow → List (String × JVal)
  | [] => per
  | row :: rows => collAux sess gnames cid (collStep sess gnames cid per row) rows

/-- Collected overrides of one calculator (`per` in the source). -/
def collectOverride (sess : Sess) (gnames : List String) (c : Calculator) :
    List (String × JVal) :=
  collAux sess gnames c.id [] c.inputs

/-- One iteration of the override assembly of `main` (source lines
374-386): a selected calculator whose collected map is non-empty is stored
under its id; everything else leaves the accumulator unchanged. -/
def ovStep (sess : Sess) (gnames selected : List String)
    (acc : List (String × List (String × JVal))) (c : Calculator) :
    List (String × List (String × JVal)) :=
  if selected.contains c.id then
    let per := collectOverride sess gnames c
    if per.isEmpty then acc else alset acc c.id per
  else acc

/-- Override assembly of `main` (source lines 373-386). -/
def buildOvAux (sess : Sess) (gnames selected : List String)
    (acc : List (String × List (String × JVal))) :
    List Calculator → List (String × List (String × JVal))
  | [] => acc
  | c :: cs => buildOvAux sess gnames selected (ovStep sess gnames selected acc c) cs

/-- The payload `overrides` map (source lines 373-386). -/
def buildOverrides (sess : Sess) (gnames selected : List String)
    (calcs : List Calculator) : List (String × List (String × JVal)) :=
  buildOvAux sess gnames selected [] calcs

/-- Session state relevant to the Calculate button: the widget-owned field
values and the stored `last_results`. -/
structure Session where
  fields : List (String × JVal)
  last_results : Option JVal
deriving Inhabited

/-- Outcome of `requests.post` on `/calculate`: a response (with the
`r.ok` flag, status code, body text and parsed JSON body) or a raised
exception (network failure, timeout, or JSON decode error — all caught by
the same `except` in the source). -/
inductive HttpOutcome where
  | response (ok : Bool) (status : Nat) (body : String) (j : JVal)
  | exn (msg : String)

/-- The Calculate click handler (source lines 397-407): a non-success
response surfaces `API error {status}: {text}` and leaves the session
untouched; a raised exception surfaces `Request failed: {e}`; a success
stores `data.get("results", data)` under `last_results`.  A success whose
body is not a dict raises `AttributeError` inside the `try` (exact message
text is runtime-specific). -/
def calculateClick (outcome : HttpOutcome) (s : Session) :
    Session × List String :=
  match outcome with
  | .exn msg => (s, ["Request failed: " ++ msg])
  | .response ok status body j =>
    if ok = false then
      (s, ["API error " ++ toString status ++ ": " ++ body])
    else
      match j with
      | .jobj kvs =>
        ({ s with last_results := some ((alget kvs "results").getD (.jobj kvs)) }, [])
      | _ => (s, ["Request failed: AttributeError"])

/-- Modelled from the spec: the Calculation Client request-lifecycle state
of section 4.5 (`inflight`, `started_at`, `finished_at`, `request_id`,
`results`, `error`).  The background-worker revision holding this state is
not among the source files; the present source revision submits
synchronously inside the button handler. -/
structure CalcClientState where
  inflight : Bool
  started_at : Option Nat := none
  finished_at : Option Nat := none
  request_id : Option String := none
  results : Option JVal := none
  error : Option String := none

/-- Modelled from the spec: the Idle → Submitting transition of section
4.5 — guarded so that a trigger while already Submitting is a no-op (the
returned flag records whether a request was issued); otherwise it captures
`started_at`, generates a fresh request identifier and clears prior
results and error. -/
def submitCalc (s : CalcClientState) (now : Nat) (fresh : String) :
    CalcClientState × Bool :=
  if s.inflight then (s, false)
  else ({ inflight := true, started_at := some now, finished_at := none,
          request_id := some fresh, results := none, error := none }, true)

/-- Per-calculator output label table of `build_label_map` (source lines
211-218): stripped `Name` keys (blank names skipped) mapped to stripped
`Label`, falling back to the name when the label is blank. -/
def byNameOf (outs : List OutputRow) : List (String × String) :=
  outs.foldl (fun acc r =>
    let nm := pyStrip (strOrEmpty r.Name)
    if nm = "" then acc
    else
      let l := pyStrip (strOrEmpty r.Label)
      alset acc nm (if l = "" then nm else l)) []

/-- The `build_label_map` helper (source lines 208-219). -/
def build_label_map (calcs : List Calculator) :
    List (String × List (String × String)) :=
  calcs.foldl (fun m c => alset m c.id (byNameOf c.outputs)) []

/-- Label resolution `label_map.get(cid, {}).get(name, name)` (source line
425). -/
def labelFor (lm : List (String × List (String × String)))
    (cid name : String) : String :=
  (alget ((alget lm cid).getD []) name).getD name

/-- Tabular classification (source line 424, negated): a result value is a
table exactly when it is a dict containing both `columns` and `rows`. -/
def isTable : JVal → Bool
  | .jobj kvs => (alget kvs "columns").isSome && (alget kvs "rows").isSome
  | _ => false

/-- Scalar rows of a result block before value formatting (source lines
423-426): non-table entries in block order, names resolved to labels. -/
def scalarRowsRaw (lm : List (String × List (String × String)))
    (cid : String) (block : List (String × JVal)) : List (String × JVal) :=
  (block.filter (fun p => !(isTable p.2))).map
    (fun p => (labelFor lm cid p.1, p.2))

/-- Rendered scalar rows (source line 432): the `Value` column of the
scalar table mapped through `format_number`. -/
def renderedScalarRows (lm : List (String × List (String × String)))
    (cid : String) (block : List (String × JVal)) : List (String × JVal) :=
  (scalarRowsRaw lm cid block).map (fun p => (p.1, format_number p.2))

/-- Tabular entries of a result block (source lines 423-428), in block
order. -/
def tableEntries (block : List (String × JVal)) : List (String × JVal) :=
  block.filter (fun p => isTable p.2)

/-- Dict access `v[k]` on a table value (`jnull` when unreachable). -/
def objGet (v : JVal) (k : String) : JVal :=
  match v with
  | .jobj kvs => (alget kvs k).getD .jnull
  | _ => .jnull

/-- `v["columns"]` stringified, as pandas writes the header row. -/
def colsOf (v : JVal) : List String :=
  (asArr (objGet v "columns")).map pyStr

/-- `v["rows"]` as a cell grid. -/
def rowsOf (v : JVal) : List (List JVal) :=
  (asArr (objGet v "rows")).map asArr

/-- Raw CSV rendering of one cell, as pandas `to_csv` writes it: integers
unformatted (no separators), strings verbatim, `None` empty. -/
def csvCell : JVal → String
  | .jnum n => toString n
  | .jstr s => s
  | .jnull => ""
  | .jbool true => "True"
  | .jbool false => "False"
  | _ => ""

/-- A CSV export: file name, header row, data cell grid. -/
structure CsvExport where
  file_name : String
  header : List String
  cells : List (List String)
deriving DecidableEq

/-- The CSV download of one tabular entry (source lines 437-448): file
name `{cid}_{name}.csv`, header = declared columns, raw unformatted
cells. -/
def csvExportFor (cid name : String) (v : JVal) : CsvExport :=
  ⟨cid ++ "_" ++ name ++ ".csv", colsOf v, (rowsOf v).map (List.map csvCell)⟩

/-- The on-demand preview of one tabular entry (source lines 449-455):
`df.head(6).applymap(format_number)` — at most the first six rows, every
cell display-formatted. -/
def previewTable (v : JVal) : List (List JVal) :=
  ((rowsOf v).take 6).map (List.map format_number)

/-- Membership in an `alset` result comes from the written pair or the
original list. -/
theorem mem_alset {α : Type} {p : String × α} {m : List (String × α)}
    {k : String} {v : α} (h : p ∈ alset m k v) : p = (k, v) ∨ p ∈ m := by
  unfold alset at h
  split at h
  · rcases List.mem_map.mp h with ⟨q, hq, rfl⟩
    by_cases hk : q.1 = k
    · simp [hk]
    · simp [hk, hq]
  · rcases List.mem_append.mp h with h' | h'
    · exact Or.inr h'
    · simp at h'
      simp [h']

/-- Lookup under a key-replacing map is unchanged at other keys. -/
theorem alget_mapRep_ne {α : Type} (m : List (String × α)) (k : String)
    (v : α) (k' : String) (h : k' ≠ k) :
    alget (m.map (fun p => if p.1 = k then (k, v) else p)) k' = alget m k' := by
  induction m with
  | nil => rfl
  | cons a t ih =>
    obtain ⟨ak, av⟩ := a
    simp only [List.map_cons]
    by_cases ha : ak = k
    · subst ha
      rw [if_pos rfl]
      simp only [alget]
      rw [if_neg h, if_neg h]
      exact ih
    · rw [if_neg ha]
      simp only [alget, ih]

/-- Lookup under a key-replacing map finds the new value when the key was
present. -/
theorem alget_mapRep_eq {α : Type} (m : List (String × α)) (k : String)
    (v : α) (h : (alget m k).isSome) :
    alget (m.map (fun p => if p.1 = k then (k, v) else p)) k = some v := by
  induction m with
  | nil => simp [alget] at h
  | cons a t ih =>
    obtain ⟨ak, av⟩ := a
    simp only [List.map_cons]
    by_cases ha : ak = k
    · subst ha
      rw [if_pos rfl]
      simp [alget]
    · rw [if_neg ha]
      simp only [alget] at h ⊢
      rw [if_neg (fun hk => ha (Eq.symm hk))] at h ⊢
      exact ih h

/-- Lookup after appending a fresh key. -/
theorem alget_append_none {α : Type} (m : List (String × α)) (k : String)
    (v : α) (k' : String) (h : alget m k = none) :
    alget (m ++ [(k, v)]) k' = if k' = k then some v else alget m k' := by
  induction m with
  | nil => simp [alget]
  | cons a t ih =>
    obtain ⟨ak, av⟩ := a
    simp only [alget] at h
    by_cases hka : k = ak
    · rw [if_pos hka] at h
      exact absurd h (by simp)
    · rw [if_neg hka] at h
      rw [List.cons_append]
      simp only [alget]
      rw [ih h]
      by_cases hk : k' = k
      · have hne : k' ≠ ak := fun h' => hka (hk.symm.trans h')
        simp only [if_pos hk, if_neg hne]
      · simp only [if_neg hk]

/-- Lookup after an `alset` write: the written key maps to the new value,
everything else is unchanged. -/
theorem alget_alset {α : Type} (m : List (String × α)) (k : String) (v : α)
    (k' : String) :
    alget (alset m k v) k' = if k' = k then some v else alget m k' := by
  unfold alset
  by_cases h : (alget m k).isSome
  · rw [if_pos h]
    by_cases hk : k' = k
    · rw [if_pos hk, hk, alget_mapRep_eq m k v h]
    · rw [if_neg hk, alget_mapRep_ne m k v k' hk]
  · rw [if_neg h]
    exact alget_append_none m k v k' (Option.not_isSome_iff_eq_none.mp h)

/-- One collection step preserves the override-entry invariant. -/
theorem collStep_inv (sess : Sess) (gnames : List String) (cid : String)
    (per : List (String × JVal)) (row : FieldRow)
    (h : ∀ p ∈ per, gnames.contains p.1 = false ∧
        alget sess ("calc:" ++ cid ++ ":" ++ p.1) = some p.2) :
    ∀ p ∈ collStep sess gnames cid per row,
      gnames.contains p.1 = false ∧
        alget sess ("calc:" ++ cid ++ ":" ++ p.1) = some p.2 := by
  unfold collStep
  by_cases hg : gnames.contains row.Name = true
  · rw [if_pos hg]
    exact h
  · rw [if_neg hg]
    cases hv : alget sess ("calc:" ++ cid ++ ":" ++ row.Name) with
    | none => exact h
    | some v =>
      intro p hp
      rcases mem_alset hp with rfl | hp'
      · refine ⟨?_, hv⟩
        cases hB : gnames.contains row.Name with
        | false => rfl
        | true => exact absurd hB hg
      · exact h p hp'

/-- Collected override entries are non-global fields with stored session
values (invariant of `collAux`). -/
theorem collAux_inv (sess : Sess) (gnames : List String) (cid : String) :
    ∀ (rows : List FieldRow) (per : List (String × JVal)),
      (∀ p ∈ per, gnames.contains p.1 = false ∧
          alget sess ("calc:" ++ cid ++ ":" ++ p.1) = some p.2) →
      ∀ p ∈ collAux sess gnames cid per rows,
        gnames.contains p.1 = false ∧
          alget sess ("calc:" ++ cid ++ ":" ++ p.1) = some p.2 := by
  intro rows
  induction rows with
  | nil => intro per h p hp; exact h p hp
  | cons row rows ih =>
    intro per h p hp
    rw [collAux] at hp
    exact ih (collStep sess gnames cid per row)
      (collStep_inv sess gnames cid per row h) p hp

/-- Shorthand for the invariant carried through the override assembly. -/
def OvInv (sess : Sess) (gnames : List String)
    (acc : List (String × List (String × JVal))) : Prop :=
  ∀ cid per, alget acc cid = some per → per ≠ [] ∧
    ∀ p ∈ per, gnames.contains p.1 = false ∧
      alget sess ("calc:" ++ cid ++ ":" ++ p.1) = some p.2

/-- One assembly step preserves the override-map invariant. -/
theorem ovStep_inv (sess : Sess) (gnames selected : List String)
    (acc : List (String × List (String × JVal))) (c : Calculator)
    (h : OvInv sess gnames acc) :
    OvInv sess gnames (ovStep sess gnames selected acc c) := by
  unfold ovStep
  by_cases hs : selected.contains c.id = true
  · rw [if_pos hs]
    by_cases hemp : (collectOverride sess gnames c).isEmpty = true
    · simp only [hemp, if_true]
      exact h
    · simp only [if_neg hemp]
      intro cid per hget
      rw [alget_alset] at hget
      by_cases hc : cid = c.id
      · rw [if_pos hc] at hget
        cases hget
        constructor
        · intro hnil
          rw [hnil] at hemp
          exact hemp rfl
        · intro p hp
          have := collAux_inv sess gnames c.id c.inputs []
            (by intro p hp; simp at hp) p hp
          rw [hc]
          exact this
      · rw [if_neg hc] at hget
        exact h cid per hget
  · rw [if_neg hs]
    exact h

/-- Entries of the assembled `overrides` map are non-empty and consist of
non-global stored fields (invariant of `buildOvAux`). -/
theorem buildOvAux_inv (sess : Sess) (gnames selected : List String) :
    ∀ (calcs : List Calculator) (acc : List (String × List (String × JVal))),
      OvInv sess gnames acc →
      OvInv sess gnames (buildOvAux sess gnames selected acc calcs) := by
  intro calcs
  induction calcs with
  | nil => intro acc h; exact h
  | cons c cs ih =>
    intro acc h
    rw [buildOvAux]
    exact ih (ovStep sess gnames selected acc c)
      (ovStep_inv sess gnames selected acc c h)

/-- Claim C3: for any combination of selected calculators and entered
session values, every field name in any `overrides` entry is absent from
the global field names and carries the stored session value, and an entry
for a calculator exists only when at least one such field was collected
(empty override maps are omitted entirely). -/
theorem overrides_no_global_dup (sess : Sess) (gnames selected : List String)
    (calcs : List Calculator) (cid : String) (per : List (String × JVal))
    (h : alget (buildOverrides sess gnames selected calcs) cid = some per) :
    per ≠ [] ∧ ∀ p ∈ per, gnames.contains p.1 = false ∧
      alget sess ("calc:" ++ cid ++ ":" ++ p.1) = some p.2 :=
  buildOvAux_inv sess gnames selected calcs []
    (fun cid per hget => by simp [alget] at hget) cid per h

/-- Witness for C3 at a concrete schema: calculator `C1` with a non-global
field `x` (stored) and the global field `g`. -/
theorem overrides_no_global_dup_witness :
    ([("x", JVal.jnum 1)] : List (String × JVal)) ≠ [] ∧
      ∀ p ∈ ([("x", JVal.jnum 1)] : List (String × JVal)),
        (["g"] : List String).contains p.1 = false ∧
          alget [("calc:C1:x", JVal.jnum 1)] ("calc:" ++ "C1" ++ ":" ++ p.1) = some p.2 :=
  overrides_no_global_dup [("calc:C1:x", JVal.jnum 1)] ["g"] ["C1"]
    [{ id := "C1", inputs := [{ Name := "x" }, { Name := "g" }] }]
    "C1" [("x", JVal.jnum 1)] rfl

/-- Claim C1, counterexample: with the county mapping `{A: [X]}`, county
`A` selected and stored township `Y`, the global township handler resets
the stored value to the placeholder `— select —`, which is neither the
empty string nor a member of the filtered option set `[X]` — so the
stored value is not "cleared to empty" as the claim states. -/
theorem township_clear_cex :
    (mainTownship [("A", ["X"])] [] "A" "Y").stored = placeholder ∧
      (mainTownship [("A", ["X"])] [] "A" "Y").stored ≠ "" ∧
      townshipOptionsData [("A", ["X"])] [] "A" = ["X"] ∧
      (mainTownship [("A", ["X"])] [] "A" "Y").stored ∉
        townshipOptionsData [("A", ["X"])] [] "A" := by
  decide

/-- Claim C1 (amended): before the township widget is rendered, the global
township handler of `main` resets a stored value that is not among the
rendered options to the placeholder `— select —` (so the sanitized stored
value is always the placeholder or a member of the filtered option set,
and an in-options value is kept), while the `render_field` township branch
clears an invalid truthy value to the empty string (so its value afterward
is empty, falsy, or a member of the filtered set). -/
theorem township_sanitized_before_render :
    (∀ ctt globalsRows sc stv,
      ((mainTownship ctt globalsRows sc stv).stored = placeholder ∨
        (mainTownship ctt globalsRows sc stv).stored ∈
          townshipOptionsData ctt globalsRows sc) ∧
      (stv ∈ (mainTownship ctt globalsRows sc stv).options →
        (mainTownship ctt globalsRows sc stv).stored = stv)) ∧
    (∀ towns cur,
      rfTownship towns cur = JVal.jstr "" ∨ truthy (rfTownship towns cur) = false ∨
        towns.contains (pyStr (rfTownship towns cur)) = true) := by
  constructor
  · intro ctt globalsRows sc stv
    have hst : (mainTownship ctt globalsRows sc stv).stored =
        if stv ∈ placeholder :: townshipOptionsData ctt globalsRows sc
        then stv else placeholder := rfl
    have hop : (mainTownship ctt globalsRows sc stv).options =
        placeholder :: townshipOptionsData ctt globalsRows sc := rfl
    rw [hst, hop]
    constructor
    · by_cases h : stv ∈ placeholder :: townshipOptionsData ctt globalsRows sc
      · rw [if_pos h]
        rcases List.mem_cons.mp h with h' | h'
        · exact Or.inl h'
        · exact Or.inr h'
      · rw [if_neg h]
        exact Or.inl rfl
    · intro h
      exact if_pos h
  · intro towns cur
    unfold rfTownship
    by_cases h : (truthy cur && !towns.contains (pyStr cur)) = true
    · rw [if_pos h]
      exact Or.inl rfl
    · rw [if_neg h]
      cases ht : truthy cur with
      | false => exact Or.inr (Or.inl rfl)
      | true =>
        cases hc : towns.contains (pyStr cur) with
        | true => exact Or.inr (Or.inr rfl)
        | false =>
          exact absurd
            (show (truthy cur && !towns.contains (pyStr cur)) = true by
              rw [ht, hc]; rfl) h

/-- Witness for C1: at the concrete mapping `{A: [X]}` with county `A`
and stored township `X` (a member of the options), the sanitized stored
value is kept as `X`. -/
theorem township_sanitized_witness :
    (mainTownship [("A", ["X"])] [] "A" "X").stored = "X" :=
  (township_sanitized_before_render.1 [("A", ["X"])] [] "A" "X").2 (by decide)

/-- Claim C2: while a submission is outstanding (`inflight`), a second
Calculate trigger is a no-op — no request is issued and the lifecycle
state, `started_at` included, is unchanged. -/
theorem submit_guard_noop (s : CalcClientState) (now : Nat) (fresh : String)
    (h : s.inflight = true) :
    (submitCalc s now fresh).2 = false ∧ (submitCalc s now fresh).1 = s ∧
      (submitCalc s now fresh).1.started_at = s.started_at := by
  simp [submitCalc, h]

/-- Witness for C2 at a concrete in-flight state. -/
theorem submit_guard_noop_witness :
    (submitCalc ⟨true, some 5, none, some "r1", none, none⟩ 9 "r2").2 = false ∧
      (submitCalc ⟨true, some 5, none, some "r1", none, none⟩ 9 "r2").1 =
        ⟨true, some 5, none, some "r1", none, none⟩ ∧
      (submitCalc ⟨true, some 5, none, some "r1", none, none⟩ 9 "r2").1.started_at =
        (⟨true, some 5, none, some "r1", none, none⟩ : CalcClientState).started_at :=
  submit_guard_noop ⟨true, some 5, none, some "r1", none, none⟩ 9 "r2" rfl

/-- Claim C4, counterexample: with no county selected but a `township`
globals row declaring `EnumValues = [Foo]`, the rendered township option
set is `[— select —, Foo]`, not empty apart from the placeholder. -/
theorem township_no_county_cex :
    (mainTownship []
        [{ Name := "township", EnumValues := JVal.jarr [JVal.jstr "Foo"] }]
        "" "").options = [placeholder, "Foo"] ∧
      (mainTownship []
        [{ Name := "township", EnumValues := JVal.jarr [JVal.jstr "Foo"] }]
        "" "").options ≠ [placeholder] := by
  constructor
  · rfl
  · decide

/-- Claim C4 (amended): whenever no county is selected, the township
options from the county mapping are empty and the rendered set falls back
to the township descriptor's `EnumValues` (stringified, stripped,
de-blanked, sorted); the rendered option set is empty apart from the
placeholder exactly when that fallback yields nothing. -/
theorem township_no_county_options (ctt : List (String × List String))
    (globalsRows : List FieldRow) (stv : String) :
    townshipOptionsData ctt globalsRows "" = townshipEnumFallback globalsRows ∧
      (townshipEnumFallback globalsRows = [] →
        (mainTownship ctt globalsRows "" stv).options = [placeholder]) := by
  have h0 : townshipOptionsData ctt globalsRows "" = townshipEnumFallback globalsRows := by
    unfold townshipOptionsData
    simp
  refine ⟨h0, fun h => ?_⟩
  have hop : (mainTownship ctt globalsRows "" stv).options =
      placeholder :: townshipOptionsData ctt globalsRows "" := rfl
  rw [hop, h0, h]

/-- Witness for C4 at concrete inputs with no `EnumValues` fallback. -/
theorem township_no_county_options_witness :
    (mainTownship [("A", ["X"])] [{ Name := "other" }] "" "Y").options = [placeholder] :=
  (township_no_county_options [("A", ["X"])] [{ Name := "other" }] "Y").2 rfl

/-- Claim C5: when the backend responds with a non-success status or the
network call raises, the click handler surfaces a human-readable error
message (`API error {status}: {body}`, or `Request failed: {exception}`)
and leaves the whole session — stored results and entered inputs —
unchanged, so the user may retry. -/
theorem calculate_error_preserves_session (s : Session) (status : Nat)
    (body : String) (j : JVal) (msg : String) :
    calculateClick (HttpOutcome.response false status body j) s =
      (s, ["API error " ++ toString status ++ ": " ++ body]) ∧
    calculateClick (HttpOutcome.exn msg) s =
      (s, ["Request failed: " ++ msg]) :=
  ⟨rfl, rfl⟩

/-- Claim C6: on a success response the parsed body is stored as the
session results — the value under the `results` key for an envelope body,
the whole body otherwise — with inputs untouched and no error surfaced. -/
theorem calculate_success_stores_results (s : Session) (status : Nat)
    (body : String) (kvs : List (String × JVal)) :
    (calculateClick (HttpOutcome.response true status body (JVal.jobj kvs)) s).1.fields
        = s.fields ∧
    (calculateClick (HttpOutcome.response true status body (JVal.jobj kvs)) s).1.last_results
        = some ((alget kvs "results").getD (JVal.jobj kvs)) ∧
    (calculateClick (HttpOutcome.response true status body (JVal.jobj kvs)) s).2 = [] ∧
    (calculateClick (HttpOutcome.response true 200 ""
        (JVal.jobj [("results", JVal.jnum 7)])) s).1.last_results = some (JVal.jnum 7) ∧
    (calculateClick (HttpOutcome.response true 200 ""
        (JVal.jobj [("other", JVal.jnum 7)])) s).1.last_results =
      some (JVal.jobj [("other", JVal.jnum 7)]) :=
  ⟨rfl, rfl, rfl, rfl, rfl⟩

/-- Concrete number-typed row with `Default=5, Min=0, Max=10`. -/
def rowNum5 : FieldRow :=
  { Name := "n", «Type» := JVal.jstr "number", Default := JVal.jnum 5,
    Min := JVal.jnum 0, Max := JVal.jnum 10 }

/-- Projection onto the numeric widget, when one was rendered. -/
def widNum : Widget → Option NumberWidget
  | .number _ w _ => some w
  | _ => none

/-- Claim C7, counterexample: with `Min=0, Max=10` and current value
`"20"`, the rendered numeric input's value is `20.0`, passed through
unclamped even though it exceeds the declared `Max` — the computation
performs no clamping, it only forwards `Min`/`Max` as widget bounds. -/
theorem number_value_unclamped_cex :
    widNum (render_field [] [] [] rowNum5 "global" (JVal.jstr "20")).1 =
      some ⟨20, 1, some 0, some 10⟩ ∧
    ¬((20 : Rat) ≤ 10) := by
  constructor
  · decide
  · norm_num

/-- Claim C7 (amended): for a field whose `Type` is `number` or
`percentage` (outside the county/township special cases and without a
non-empty `EnumValues` list), the rendered numeric input's value is the
current value coerced to a float, falling back to the descriptor's
`Default` (or `0.0`) when absent or unparsable; `Min`/`Max` are forwarded
as widget bounds (not used to clamp the value); the step is `0.01` for
percentage fields and `1.0` for plain numbers.  In particular, with
`Default=5` and no current value the value is `5.0`, and likewise for the
unparsable current value `abc`. -/
theorem number_field_value (co : List String)
    (tbc : List (String × List String)) (sess : Sess) (row : FieldRow)
    (keyPref : String) (cur : JVal)
    (h1 : ¬(row.Name = "county" ∧ co ≠ []))
    (h2 : ¬(row.Name = "township" ∧ tbc ≠ []))
    (h3 : isEnumList row.EnumValues = false)
    (h4 : typeStr row = "number" ∨ typeStr row = "percentage") :
    (render_field co tbc sess row keyPref cur).1 =
      Widget.number (fieldLabel row)
        ⟨numValue row cur, numberStep row, _to_float row.Min, _to_float row.Max⟩
        (keyPref ++ ":" ++ row.Name) ∧
    numValue rowNum5 JVal.jnull = 5 ∧
    numValue rowNum5 (JVal.jstr "abc") = 5 ∧
    numberStep { Name := "p", «Type» := JVal.jstr "percentage" } = 1/100 ∧
    numberStep rowNum5 = 1 := by
  refine ⟨?_, rfl, rfl, rfl, rfl⟩
  unfold render_field
  rw [if_neg h1, if_neg h2]
  simp only [h3, Bool.false_eq_true, if_false]
  rw [if_pos h4]

/-- Witness for C7: the amended statement applied at `rowNum5` with no
current value renders the numeric widget with value `5`, step `1` and
bounds `0`/`10`. -/
theorem number_field_value_witness :
    (render_field [] [] [] rowNum5 "global" JVal.jnull).1 =
      Widget.number "n" ⟨5, 1, some 0, some 10⟩ "global:n" ∧
    numValue rowNum5 JVal.jnull = 5 ∧
    numValue rowNum5 (JVal.jstr "abc") = 5 ∧
    numberStep { Name := "p", «Type» := JVal.jstr "percentage" } = 1/100 ∧
    numberStep rowNum5 = 1 :=
  number_field_value [] [] [] rowNum5 "global" JVal.jnull
    (by simp) (by simp) rfl (Or.inl rfl)

/-- Output-label map of the one-calculator example schema: calculator
`C1` with output `{Name: total, Label: Total Energy}`. -/
def lmEx : List (String × List (String × String)) :=
  build_label_map
    [{ id := "C1",
       outputs := [{ Name := JVal.jstr "total", Label := JVal.jstr "Total Energy" }] }]

/-- Claim C8: every scalar (non-table) result entry is rendered as a
label/value row — the label resolved through the output-label map built
from the schema outputs (falling back to the raw metric name) and the
value passed through `format_number` (thousands separators and zero
decimals for numbers, empty output for null/empty values, unformatted
passthrough otherwise); in particular metric `total` with label
`Total Energy` and value `1234567` renders as `(Total Energy,
1,234,567)`. -/
theorem scalar_rows_rendering :
    (∀ (lm : List (String × List (String × String))) (cid : String)
        (block : List (String × JVal)) (n : String) (v : JVal),
      (n, v) ∈ block → isTable v = false →
        (labelFor lm cid n, format_number v) ∈ renderedScalarRows lm cid block) ∧
    renderedScalarRows lmEx "C1" [("total", JVal.jnum 1234567)] =
      [("Total Energy", JVal.jstr "1,234,567")] ∧
    labelFor lmEx "C1" "missing" = "missing" ∧
    format_number JVal.jnull = JVal.jstr "" ∧
    format_number (JVal.jstr "") = JVal.jstr "" ∧
    format_number (JVal.jstr "abc") = JVal.jstr "abc" := by
  refine ⟨?_, rfl, rfl, rfl, rfl, rfl⟩
  intro lm cid block n v hmem htab
  have hf : (n, v) ∈ block.filter (fun p => !(isTable p.2)) :=
    List.mem_filter.mpr ⟨hmem, by rw [htab]; rfl⟩
  have h1 : (labelFor lm cid n, v) ∈ scalarRowsRaw lm cid block :=
    List.mem_map_of_mem (fun p => (labelFor lm cid p.1, p.2)) hf
  exact List.mem_map_of_mem (fun p => (p.1, format_number p.2)) h1

/-- Witness for C8: the end-to-end example row obtained from the general
statement at the concrete block. -/
theorem scalar_rows_rendering_witness :
    (("Total Energy", JVal.jstr "1,234,567") : String × JVal) ∈
      renderedScalarRows lmEx "C1" [("total", JVal.jnum 1234567)] :=
  scalar_rows_rendering.1 lmEx "C1" [("total", JVal.jnum 1234567)]
    "total" (JVal.jnum 1234567) (List.Mem.head _) rfl

/-- Example tabular result value `{columns: [year, mw], rows: [[2025, 10],
[2026, 12]]}`. -/
def tEx : JVal :=
  JVal.jobj
    [("columns", JVal.jarr [JVal.jstr "year", JVal.jstr "mw"]),
     ("rows", JVal.jarr
       [JVal.jarr [JVal.jnum 2025, JVal.jnum 10],
        JVal.jarr [JVal.jnum 2026, JVal.jnum 12]])]

/-- Claim C9: a result entry is classified as tabular exactly when its
value is an object carrying both `columns` and `rows`; a tabular entry's
CSV export is named `{calculatorId}_{outputName}.csv` with the declared
columns as header row and raw unformatted numeric cells, while the
on-screen preview applies the thousands-separator display formatting. -/
theorem table_classification_csv :
    (∀ v : JVal, isTable v = true ↔
      ∃ kvs, v = JVal.jobj kvs ∧ (alget kvs "columns").isSome = true ∧
        (alget kvs "rows").isSome = true) ∧
    isTable tEx = true ∧
    tableEntries [("annual", tEx)] = [("annual", tEx)] ∧
    renderedScalarRows lmEx "C1" [("annual", tEx)] = [] ∧
    csvExportFor "C1" "annual" tEx =
      { file_name := "C1_annual.csv", header := ["year", "mw"],
        cells := [["2025", "10"], ["2026", "12"]] } ∧
    previewTable tEx =
      [[JVal.jstr "2,025", JVal.jstr "10"], [JVal.jstr "2,026", JVal.jstr "12"]] := by
  refine ⟨?_, rfl, rfl, rfl, by decide, rfl⟩
  intro v
  cases v with
  | jobj kvs =>
    simp only [isTable, Bool.and_eq_true]
    constructor
    · intro h
      exact ⟨kvs, rfl, h.1, h.2⟩
    · rintro ⟨kvs', heq, h1, h2⟩
      cases heq
      exact ⟨h1, h2⟩
  | jnull =>
    simp only [isTable]
    constructor
    · intro h
      exact absurd h (by decide)
    · rintro ⟨kvs', heq, h1, h2⟩
      cases heq
  | jbool b =>
    simp only [isTable]
    constructor
    · intro h
      exact absurd h (by decide)
    · rintro ⟨kvs', heq, h1, h2⟩
      cases heq
  | jnum n =>
    simp only [isTable]
    constructor
    · intro h
      exact absurd h (by decide)
    · rintro ⟨kvs', heq, h1, h2⟩
      cases heq
  | jstr s =>
    simp only [isTable]
    constructor
    · intro h
      exact absurd h (by decide)
    · rintro ⟨kvs', heq, h1, h2⟩
      cases heq
  | jarr xs =>
    simp only [isTable]
    constructor
    · intro h
      exact absurd h (by decide)
    · rintro ⟨kvs', heq, h1, h2⟩
      cases heq

/-- A table value with seven data rows, exceeding the preview limit. -/
def bigV : JVal :=
  JVal.jobj
    [("columns", JVal.jarr [JVal.jstr "c"]),
     ("rows", JVal.jarr
       ((List.range 7).map (fun i => JVal.jarr [JVal.jnum i])))]

/-- Claim C10: the on-demand preview of a tabular result shows at most the
first six rows, with the display number formatting applied to every cell,
while the CSV export always carries every row — so a table with more than
six rows has data reachable only through the CSV export. -/
theorem preview_limited_to_six (cid n : String) (v : JVal) :
    (previewTable v).length ≤ 6 ∧
    previewTable v = ((rowsOf v).take 6).map (List.map format_number) ∧
    (csvExportFor cid n v).cells = (rowsOf v).map (List.map csvCell) ∧
    (6 < (rowsOf v).length →
      (previewTable v).length < (csvExportFor cid n v).cells.length) := by
  refine ⟨?_, rfl, rfl, ?_⟩
  · simp only [previewTable, List.length_map, List.length_take]
    omega
  · intro h
    simp only [previewTable, csvExportFor, List.length_map, List.length_take]
    omega

/-- Witness for C10 at the seven-row table: the preview is strictly
shorter than the CSV data. -/
theorem preview_limited_to_six_witness :
    (previewTable bigV).length < (csvExportFor "C1" "annual" bigV).cells.length :=
  (preview_limited_to_six "C1" "annual" bigV).2.2.2 (by decide)

end RStep
